import Mathlib

/-!
Shallow embedding of the `parse-result` crate (`src/lib.rs`).

The crate adds a `parse` method to `Result<T, E>` (for `T: AsRef<str>`),
parsing the success value's text into a target type `F: FromStr` and
combining the two possible failures into the two-variant enum
`Error<E, P>` with constructors `OriginalErr` and `ParseFailure`.

Rust's `Result<T, E>` is embedded as the inductive `RResult T E`, with
`map_err` and `and_then` translated from the Rust standard library, and
`ParseResult::parse` is the exact composition found in the source:
`self.map_err(OriginalErr).and_then(|s| s.as_ref().parse().map_err(ParseFailure))`.
The `AsRef<str>` view of `T` and the `FromStr` instance of `F` are
parameters (`as_ref`, `from_str`), since the code is generic over them.
The `derive(PartialEq)` equality, the `std::error::Error` impl
(`description`, `cause`) and the `Display` impl are each embedded as a
function dispatching on the variant, with the trait methods of the
wrapped types passed as parameters (the trait bounds of the impls).
-/

/-- Rust's `Result<T, E>`: `Ok` carries a success value, `Err` a failure. -/
inductive RResult (T E : Type) where
  | Ok : T → RResult T E
  | Err : E → RResult T E
deriving DecidableEq, Repr

/-- Rust std `Result::map_err`: applies `op` to a contained `Err` value,
leaving an `Ok` value untouched. -/
def RResult.map_err {T E E2 : Type} : RResult T E → (E → E2) → RResult T E2
  | .Ok t, _ => .Ok t
  | .Err e, op => .Err (op e)

/-- Rust std `Result::and_then`: calls `op` on a contained `Ok` value,
propagating an `Err` value unchanged. -/
def RResult.and_then {T U E : Type} : RResult T E → (T → RResult U E) → RResult U E
  | .Ok t, op => op t
  | .Err e, _ => .Err e

/-- `Error<E, P>` from `src/lib.rs`: the possible errors from calling
`parse` on a `Result`. `OriginalErr` wraps a pre-existing `Err` from
before attempting to parse; `ParseFailure` wraps an `Err` generated as a
result of parsing. -/
inductive Error (E P : Type) where
  | OriginalErr : E → Error E P
  | ParseFailure : P → Error E P
deriving DecidableEq, Repr

/-- `ParseResult::parse` for `Result<T, E>` where `T: AsRef<str>`,
`F: FromStr`.  `as_ref` is `T`'s `AsRef<str>` view, `from_str` is `F`'s
`FromStr::from_str` (the operation `str::parse` delegates to).  Body is
the translation of
`self.map_err(OriginalErr).and_then(|s| s.as_ref().parse().map_err(ParseFailure))`. -/
def ParseResult.parse {T E F P : Type} (as_ref : T → String)
    (from_str : String → RResult F P) (self : RResult T E) :
    RResult F (Error E P) :=
  (self.map_err Error.OriginalErr).and_then
    (fun s => (from_str (as_ref s)).map_err Error.ParseFailure)

/-- The `derive(PartialEq)` equality on `Error<E, P>`: equal variant tags
and equal wrapped values (compared with the wrapped types' own equality
`eqE` / `eqP`); differing tags compare unequal. -/
def Error.beq {E P : Type} (eqE : E → E → Bool) (eqP : P → P → Bool) :
    Error E P → Error E P → Bool
  | .OriginalErr a, .OriginalErr b => eqE a b
  | .ParseFailure a, .ParseFailure b => eqP a b
  | _, _ => false

/-- The methods a `std::error::Error` impl provides for a wrapped type:
here just `description`, which is all `Error`'s own impl consults. -/
structure StdErrorInst (α : Type) where
  description : α → String

/-- `StdError::description` for `Error<E, P>` (bounds `E: StdError`,
`P: StdError`, embedded as the `StdErrorInst` parameters): delegates to
the wrapped value's own `description`, for either variant. -/
def Error.description {E P : Type} (iE : StdErrorInst E) (iP : StdErrorInst P) :
    Error E P → String
  | .OriginalErr e => iE.description e
  | .ParseFailure p => iP.description p

/-- `StdError::cause` for `Error<E, P>`: returns `Some` of the wrapped
value (as a `&StdError` trait object, embedded as the sum `E ⊕ P`), for
either variant. -/
def Error.cause {E P : Type} : Error E P → Option (E ⊕ P)
  | .OriginalErr e => some (Sum.inl e)
  | .ParseFailure p => some (Sum.inr p)

/-- `description` of a `&StdError` trait object produced by
`Error::cause`: dispatches to the description of the underlying value. -/
def causeDescription {E P : Type} (iE : StdErrorInst E) (iP : StdErrorInst P) :
    E ⊕ P → String
  | Sum.inl e => iE.description e
  | Sum.inr p => iP.description p

/-- `Display for Error<E, P>` (bounds `E: Display`, `P: Display`,
embedded as `dispE` / `dispP`): `fmt` delegates to the wrapped value's
own `fmt`, for either variant; the rendered text is the string the
formatter receives. -/
def Error.fmt {E P : Type} (dispE : E → String) (dispP : P → String) :
    Error E P → String
  | .OriginalErr e => dispE e
  | .ParseFailure p => dispP p

/-- Accumulate a decimal natural number; fails on a non-digit. -/
def natFromStrAux : List Char → Nat → Option Nat
  | [], acc => some acc
  | c :: cs, acc =>
    if c.isDigit then natFromStrAux cs (acc * 10 + (c.toNat - 48)) else none

/-- A concrete `FromStr` instance used to instantiate witnesses:
parsing a natural number from decimal text, failing with the message
Rust's integer parse error carries for non-digit input. -/
def natFromStr (s : String) : RResult Nat String :=
  match natFromStrAux s.data 0 with
  | some n => .Ok n
  | none => .Err "invalid digit found in string"

/-- C1: for every failure input `Err(e)` and every target type,
`parse` yields `Err(OriginalErr(e))` with the original error value `e`
unchanged, and the target type's parse operation is never invoked on
that input: the result is the same for every choice of `from_str`. -/
theorem parse_err_short_circuits {T E F P : Type} (as_ref : T → String)
    (from_str from_str2 : String → RResult F P) (e : E) :
    ParseResult.parse as_ref from_str (RResult.Err e) =
      RResult.Err (Error.OriginalErr e) ∧
    ParseResult.parse as_ref from_str (RResult.Err e) =
      ParseResult.parse as_ref from_str2 (RResult.Err e) :=
  ⟨rfl, rfl⟩

/-- C2: for every success input `Ok(t)` whose textual view parses
successfully into the target type, `parse` yields `Ok(v)` where `v` is
exactly the value the target type's `FromStr` produces for that text. -/
theorem parse_ok_success {T E F P : Type} (as_ref : T → String)
    (from_str : String → RResult F P) (t : T) (v : F)
    (h : from_str (as_ref t) = RResult.Ok v) :
    ParseResult.parse (E := E) as_ref from_str (RResult.Ok t) = RResult.Ok v := by
  simp [ParseResult.parse, RResult.map_err, RResult.and_then, h]

/-- Witness for C2 at `Ok "42"` parsed as a natural number. -/
theorem parse_ok_success_witness :
    natFromStr ((fun (s : String) => s) "42") = RResult.Ok 42 ∧
    ParseResult.parse (E := String) (fun (s : String) => s) natFromStr
      (RResult.Ok "42") = RResult.Ok 42 :=
  ⟨by decide, parse_ok_success (fun (s : String) => s) natFromStr "42" 42 (by decide)⟩

/-- C3: for every success input `Ok(t)` whose textual view does not
parse into the target type, `parse` yields `Err(ParseFailure(p))` where
`p` is exactly the error the target type's `FromStr` produces for that
text. -/
theorem parse_ok_failure {T E F P : Type} (as_ref : T → String)
    (from_str : String → RResult F P) (t : T) (p : P)
    (h : from_str (as_ref t) = RResult.Err p) :
    ParseResult.parse (E := E) as_ref from_str (RResult.Ok t) =
      RResult.Err (Error.ParseFailure p) := by
  simp [ParseResult.parse, RResult.map_err, RResult.and_then, h]

/-- Witness for C3 at `Ok "hello"` parsed as a natural number. -/
theorem parse_ok_failure_witness :
    natFromStr ((fun (s : String) => s) "hello") =
      RResult.Err "invalid digit found in string" ∧
    ParseResult.parse (E := String) (fun (s : String) => s) natFromStr
      (RResult.Ok "hello") =
      RResult.Err (Error.ParseFailure "invalid digit found in string") :=
  ⟨by decide, parse_ok_failure (fun (s : String) => s) natFromStr "hello"
    "invalid digit found in string" (by decide)⟩

/-- C4: the failure channel is correctly tagged by which stage failed:
the result is `Err(OriginalErr(_))` exactly when the input was a
failure, `Err(ParseFailure(_))` exactly when the input was a success
whose text failed to parse, and every result is one of `Ok`,
`Err(OriginalErr(_))`, `Err(ParseFailure(_))` — `parse` is a total
function, so all failure is represented in the returned value. -/
theorem parse_error_tagging {T E F P : Type} (as_ref : T → String)
    (from_str : String → RResult F P) (input : RResult T E) :
    ((∃ e, ParseResult.parse as_ref from_str input =
        RResult.Err (Error.OriginalErr e)) ↔ (∃ e, input = RResult.Err e)) ∧
    ((∃ p, ParseResult.parse as_ref from_str input =
        RResult.Err (Error.ParseFailure p)) ↔
      (∃ t p, input = RResult.Ok t ∧ from_str (as_ref t) = RResult.Err p)) ∧
    ((∃ f, ParseResult.parse as_ref from_str input = RResult.Ok f) ∨
     (∃ e, ParseResult.parse as_ref from_str input =
        RResult.Err (Error.OriginalErr e)) ∨
     (∃ p, ParseResult.parse as_ref from_str input =
        RResult.Err (Error.ParseFailure p))) := by
  rcases input with t | e
  · rcases hfs : from_str (as_ref t) with v | p <;>
      simp [ParseResult.parse, RResult.map_err, RResult.and_then, hfs]
  · simp [ParseResult.parse, RResult.map_err, RResult.and_then]

/-- C5: the derived equality on `Error<E, P>` holds iff the two values
carry the same variant tag and equal wrapped values; in particular
`OriginalErr(e)` is never equal to `ParseFailure(p)`.  Instantiated
with genuine equality on the wrapped types, it coincides with
propositional equality of the two `Error` values. -/
theorem error_eq_iff {E P : Type} [DecidableEq E] [DecidableEq P]
    (eqE : E → E → Bool) (eqP : P → P → Bool) (x y : Error E P) :
    (Error.beq eqE eqP x y = true ↔
      ((∃ a b, x = Error.OriginalErr a ∧ y = Error.OriginalErr b ∧ eqE a b = true) ∨
       (∃ a b, x = Error.ParseFailure a ∧ y = Error.ParseFailure b ∧ eqP a b = true))) ∧
    (∀ (e : E) (p : P),
      Error.beq eqE eqP (Error.OriginalErr e) (Error.ParseFailure p) = false) ∧
    (Error.beq (fun a b => decide (a = b)) (fun a b => decide (a = b)) x y = true ↔
      x = y) := by
  refine ⟨?_, fun e p => rfl, ?_⟩
  · rcases x with a | a <;> rcases y with b | b <;> simp [Error.beq]
  · rcases x with a | a <;> rcases y with b | b <;> simp [Error.beq]

/-- C6: `description` of an `Error<E, P>` value equals verbatim the
description of the wrapped failure value, for either variant: the
wrapper contributes no additional text. -/
theorem description_delegates {E P : Type}
    (iE : StdErrorInst E) (iP : StdErrorInst P) :
    (∀ e : E, Error.description iE iP (Error.OriginalErr e) = iE.description e) ∧
    (∀ p : P, Error.description iE iP (Error.ParseFailure p) = iP.description p) ∧
    (∀ err : Error E P, ∃ c, err.cause = some c ∧
      Error.description iE iP err = causeDescription iE iP c) := by
  refine ⟨fun e => rfl, fun p => rfl, fun err => ?_⟩
  rcases err with e | p
  · exact ⟨Sum.inl e, rfl, rfl⟩
  · exact ⟨Sum.inr p, rfl, rfl⟩

/-- C7: `cause` on an `Error<E, P>` value returns `Some` of the wrapped
failure value for both variants — never `None` — exposing the wrapped
value as the single underlying cause. -/
theorem cause_is_wrapped {E P : Type} :
    (∀ e : E, Error.cause (Error.OriginalErr (P := P) e) = some (Sum.inl e)) ∧
    (∀ p : P, Error.cause (Error.ParseFailure (E := E) p) = some (Sum.inr p)) ∧
    (∀ err : Error E P, err.cause ≠ none) := by
  refine ⟨fun e => rfl, fun p => rfl, fun err => ?_⟩
  rcases err with e | p <;> simp [Error.cause]

/-- C8: the rendered display text loses the distinction between the two
failure origins: each variant renders exactly to its inner error's
rendered text, so whenever the two inner texts agree, `OriginalErr` of
the one and `ParseFailure` of the other render identically. -/
theorem display_loses_distinction {E P : Type} (dispE : E → String)
    (dispP : P → String) (e : E) (p : P) (h : dispE e = dispP p) :
    Error.fmt dispE dispP (Error.OriginalErr e) = dispE e ∧
    Error.fmt dispE dispP (Error.ParseFailure p) = dispP p ∧
    Error.fmt dispE dispP (Error.OriginalErr e) =
      Error.fmt dispE dispP (Error.ParseFailure p) := by
  refine ⟨rfl, rfl, ?_⟩
  simpa [Error.fmt] using h

/-- Witness for C8 with `String` inner errors rendered by identity. -/
theorem display_loses_distinction_witness :
    (fun (s : String) => s) "boom" = (fun (s : String) => s) "boom" ∧
    Error.fmt (fun (s : String) => s) (fun (s : String) => s)
        (Error.OriginalErr "boom") =
      Error.fmt (fun (s : String) => s) (fun (s : String) => s)
        (Error.ParseFailure "boom") :=
  ⟨rfl, (display_loses_distinction (fun (s : String) => s)
    (fun (s : String) => s) "boom" "boom" rfl).2.2⟩

/-- C9: `parse` is a deterministic function of its consumed input: two
invocations on equal inputs (with the same `AsRef` view and `FromStr`
operation) return equal results.  In this embedding `parse` is a pure
total function, so it has no side effects and depends on nothing but
its arguments. -/
theorem parse_deterministic {T E F P : Type} (as_ref : T → String)
    (from_str : String → RResult F P) (x y : RResult T E) (h : x = y) :
    ParseResult.parse as_ref from_str x = ParseResult.parse as_ref from_str y :=
  congrArg (ParseResult.parse as_ref from_str) h

/-- Witness for C9 at two (equal) copies of `Ok "42"`. -/
theorem parse_deterministic_witness :
    (RResult.Ok (E := String) "42") = (RResult.Ok (E := String) "42") ∧
    ParseResult.parse (fun (s : String) => s) natFromStr
        (RResult.Ok (E := String) "42") =
      ParseResult.parse (fun (s : String) => s) natFromStr
        (RResult.Ok (E := String) "42") :=
  ⟨rfl, parse_deterministic (fun (s : String) => s) natFromStr
    (RResult.Ok "42") (RResult.Ok "42") rfl⟩

/-- C10: for every `Error<E, P>` value, `cause` is `Some`, and the
`description` of the error equals the `description` of the value
`cause` returns: walking one step down the causal chain never changes
the message. -/
theorem description_matches_cause {E P : Type}
    (iE : StdErrorInst E) (iP : StdErrorInst P) (err : Error E P) :
    ∃ c, err.cause = some c ∧
      Error.description iE iP err = causeDescription iE iP c := by
  rcases err with e | p
  · exact ⟨Sum.inl e, rfl, rfl⟩
  · exact ⟨Sum.inr p, rfl, rfl⟩
